import Mathlib

/-!
Verification development for the bounty notification bot (`bot.py`).

The definitions below are a shallow embedding of the polling-dedup-fanout
pipeline: JSON response normalization and status-code policy of
`BountyAPI.fetch_bounties`, the retry/backoff combinator that decorates it
(tenacity `stop_after_attempt` / `wait_exponential` with the configured
parameters), the SQLite-backed store operations of `Database`, and the
per-listing processing of `BountyBot.process_bounty` /
`BountyBot.poll_bounties`.  Effectful Python code is modelled by explicit
state passing; exceptions by `Except`; fault injection for delivery and
store reads by a `Faults` record.
-/

namespace BountyBot

/-- A decoded JSON value, as produced by `resp.json()`. -/
inductive Json where
  | null : Json
  | bool (b : Bool) : Json
  | num (n : Int) : Json
  | str (s : String) : Json
  | arr (xs : List Json) : Json
  | obj (fields : List (String × Json)) : Json

/-- `Json.isArr v` holds when `v` is a JSON sequence (a Python `list`). -/
def Json.isArr : Json → Bool
  | .arr _ => true
  | _ => false

/-- Membership / indexing for a JSON object: `key in data` and `data[key]`
(Python dict keys are unique, so first match is the match). -/
def lookupKey : List (String × Json) → String → Option Json
  | [], _ => none
  | (k, v) :: rest, key => if k = key then some v else lookupKey rest key

/-- The fixed key-probe order of `fetch_bounties`:
`for key in ['bounties', 'data', 'results', 'items']`. -/
def responseKeys : List String := ["bounties", "data", "results", "items"]

/-- Probe the object fields with each candidate key in order and return the
value under the first key that is present. -/
def probeKeys (fields : List (String × Json)) : List String → Option Json
  | [] => none
  | k :: ks =>
    match lookupKey fields k with
    | some v => some v
    | none => probeKeys fields ks

/-- The response-shape normalization done in the `resp.status == 200` branch
of `BountyAPI.fetch_bounties`: a list is returned unchanged; a dict is probed
for `bounties`/`data`/`results`/`items` and the first hit returned as-is;
anything else yields `[]`. -/
def extract_bounties : Json → Json
  | .arr xs => .arr xs
  | .obj fields =>
    match probeKeys fields responseKeys with
    | some v => v
    | none => .arr []
  | _ => .arr []

/-- Log events emitted by one fetch attempt. -/
inductive FetchLog where
  | unexpectedShape : FetchLog
  | authFailed : FetchLog
  | rateLimited : FetchLog
  | apiError (status : Nat) : FetchLog
deriving DecidableEq, Repr

/-- The warning logged in the 200 branch when a dict body has none of the
probed keys. -/
def shape_logs : Json → List FetchLog
  | .obj fields =>
    match probeKeys fields responseKeys with
    | some _ => []
    | none => [.unexpectedShape]
  | _ => []

/-- One HTTP attempt of `BountyAPI.fetch_bounties`, as a function of the
response status and decoded body.  `Except.error ()` models a raised
transient exception (`aiohttp.ClientError`); 200 normalizes the body,
401 and any other non-200 status return `[]` without raising, and 429
raises for retry. -/
def fetch_attempt (status : Nat) (body : Json) : Except Unit Json × List FetchLog :=
  if status = 200 then (.ok (extract_bounties body), shape_logs body)
  else if status = 401 then (.ok (.arr []), [.authFailed])
  else if status = 429 then (.error (), [.rateLimited])
  else (.ok (.arr []), [.apiError status])

/-- tenacity `wait_exponential(multiplier, max, exp_base := 2, min)` as in
tenacity 8.x: the wait after the `attempt_number`-th failed attempt is
`max(max(0, min), min(multiplier * 2 ^ (attempt_number - 1), max))`. -/
def wait_exponential (multiplier mn mx attempt_number : Nat) : Nat :=
  Nat.max (Nat.max 0 mn) (Nat.min (multiplier * 2 ^ (attempt_number - 1)) mx)

/-- The backoff delay configured on `fetch_bounties`:
`wait_exponential(multiplier=1, min=2, max=10)`. -/
def backoff_delay (attempt_number : Nat) : Nat :=
  wait_exponential 1 2 10 attempt_number

/-- Outcome of running a function under the retry decorator: the final
result, the number of attempts issued, and the sleep delays taken between
attempts. -/
structure RetryResult (α : Type) where
  result : Except Unit α
  attempts : Nat
  delays : List Nat

/-- The tenacity retry loop with `stop_after_attempt` semantics: attempt
numbers count from `attempt`; an attempt returning `.error` is transient
(every exception `fetch_bounties` raises is retried by the configured
predicate), and after a failure the loop stops if the attempt budget `fuel`
is spent, else sleeps `backoff_delay` of the just-failed attempt number and
retries. -/
def retry_loop (outcome : Nat → Except Unit α) (attempt : Nat) :
    Nat → RetryResult α
  | 0 => ⟨.error (), 0, []⟩
  | fuel + 1 =>
    match outcome attempt with
    | .ok v => ⟨.ok v, 1, []⟩
    | .error e =>
      match fuel with
      | 0 => ⟨.error e, 1, []⟩
      | rem + 1 =>
        let rest := retry_loop outcome (attempt + 1) (rem + 1)
        ⟨rest.result, rest.attempts + 1, backoff_delay attempt :: rest.delays⟩

/-- `fetch_bounties` under its decorator: `stop=stop_after_attempt(maxRetries)`,
first attempt numbered 1. -/
def fetch_bounties_retry (maxRetries : Nat) (outcome : Nat → Except Unit α) :
    RetryResult α :=
  retry_loop outcome 1 maxRetries

/-- Python substring containment: `needle in haystack`. -/
def containsSubstr (needle : List Char) : List Char → Bool
  | [] => needle.isEmpty
  | c :: rest => needle.isPrefixOf (c :: rest) || containsSubstr needle rest

/-- Python `str.lower()`: case-fold each character, nothing else — no
trimming, no other normalization. -/
def str_lower (s : String) : String :=
  ⟨s.data.map Char.toLower⟩

/-- `BountyBot.matches_location`: `keyword.lower() in location.lower()`. -/
def matches_location (location keyword : String) : Bool :=
  containsSubstr (str_lower keyword).data (str_lower location).data

/-- The bot's SQLite state: `guild_settings(guild_id PRIMARY KEY, channel_id)`,
`subscriptions(guild_id, keyword, UNIQUE(guild_id, keyword))`, and
`processed_bounties(bounty_id PRIMARY KEY)`. -/
structure DBState where
  guild_settings : List (String × String)
  subscriptions : List (String × String)
  processed : List String
deriving DecidableEq, Repr

/-- `Database.get_all_guilds`: every `(guild_id, channel_id)` row. -/
def get_all_guilds (db : DBState) : List (String × String) :=
  db.guild_settings

/-- `Database.get_subscriptions`: the keywords stored for one guild. -/
def get_subscriptions (db : DBState) (guild_id : String) : List String :=
  (db.subscriptions.filter (fun p => p.1 == guild_id)).map (fun p => p.2)

/-- `Database.is_bounty_processed`: membership in `processed_bounties`. -/
def is_bounty_processed (db : DBState) (bounty_id : String) : Bool :=
  decide (bounty_id ∈ db.processed)

/-- `Database.mark_bounty_processed`: `INSERT OR IGNORE` into
`processed_bounties` — a duplicate insert leaves the table unchanged. -/
def mark_bounty_processed (db : DBState) (bounty_id : String) : DBState :=
  if bounty_id ∈ db.processed then db
  else { db with processed := db.processed ++ [bounty_id] }

/-- `Database.add_subscription`: a plain `INSERT`; the table's
`UNIQUE(guild_id, keyword)` constraint raises `IntegrityError` on a
duplicate pair, which the method catches and turns into `False` with no
mutation. -/
def add_subscription (db : DBState) (guild_id keyword : String) :
    Bool × DBState :=
  if (guild_id, keyword) ∈ db.subscriptions then (false, db)
  else (true, { db with subscriptions := db.subscriptions ++ [(guild_id, keyword)] })

/-- One listing as consumed by `process_bounty`: only the `id` and
`location` fields matter to the pipeline.  `none` models an absent key;
`bounty.get("id", "")` therefore yields `""` and `bounty.get("location",
"Remote")` yields `"Remote"`. -/
structure Bounty where
  id : Option String
  location : Option String
deriving DecidableEq, Repr

/-- `str(bounty.get("id", ""))`. -/
def bounty_id_of (b : Bounty) : String := b.id.getD ""

/-- `bounty.get("location", "Remote")`. -/
def location_of (b : Bounty) : String := b.location.getD "Remote"

/-- Fault injection for the fanout loop: `subsFail g` makes
`get_subscriptions(g)` raise for that guild, `sendFail c` makes the delivery
to channel `c` raise.  Both exceptions are caught by the code. -/
structure Faults where
  subsFail : String → Bool
  sendFail : String → Bool

/-- Log events emitted by `process_bounty`. -/
inductive BotLog where
  | missingId : BotLog
  | guildError (guild_id : String) : BotLog
  | sendError (channel_id : String) : BotLog
deriving DecidableEq, Repr

/-- One attempted call of `send_bounty_notification`. -/
structure SendCall where
  channel_id : String
  bounty : Bounty
deriving DecidableEq, Repr

/-- The per-guild body of the fanout loop in `process_bounty`: inside a
`try`, read the guild's keywords, test them against the location with
first-match short-circuit, and deliver on a match; any exception for this
guild is caught and logged, leaving other guilds untouched. -/
def fanout_guild (f : Faults) (db : DBState) (location : String) (b : Bounty)
    (g : String × String) : List SendCall × List BotLog :=
  if f.subsFail g.1 then ([], [.guildError g.1])
  else
    let keywords := get_subscriptions db g.1
    if keywords.any (fun kw => matches_location location kw) then
      if f.sendFail g.2 then ([⟨g.2, b⟩], [.sendError g.2])
      else ([⟨g.2, b⟩], [])
    else ([], [])

/-- `BountyBot.process_bounty`: skip (with a warning) when the id is falsy,
skip silently when already processed, otherwise mark processed first and
only then fan out to every guild. -/
def process_bounty (f : Faults) (db : DBState) (b : Bounty) :
    DBState × List SendCall × List BotLog :=
  let bid := bounty_id_of b
  if bid = "" then (db, [], [.missingId])
  else if is_bounty_processed db bid then (db, [], [])
  else
    let db1 := mark_bounty_processed db bid
    let results := (get_all_guilds db1).map (fanout_guild f db1 (location_of b) b)
    (db1, (results.map Prod.fst).flatten, (results.map Prod.snd).flatten)

/-- The `for bounty in bounties` body of one poll cycle. -/
def process_batch (f : Faults) (db : DBState) :
    List Bounty → DBState × List SendCall
  | [] => (db, [])
  | b :: rest =>
    let r := process_bounty f db b
    let r2 := process_batch f r.1 rest
    (r2.1, r.2.1 ++ r2.2)

/-- One iteration of `poll_bounties`: the whole fetch-and-process body sits
in a `try` whose handler logs and falls through to the sleep, so a fetch
error yields an unchanged store, zero sends, and a cycle that completes. -/
def poll_cycle (f : Faults) (db : DBState)
    (fetchResult : Except Unit (List Bounty)) : DBState × List SendCall :=
  match fetchResult with
  | .error _ => (db, [])
  | .ok bounties => process_batch f db bounties

/-- Fault environment with no failures. -/
def faultFree : Faults := ⟨fun _ => false, fun _ => false⟩

/-- Fault environment in which every delivery fails. -/
def allSendFail : Faults := ⟨fun _ => false, fun _ => true⟩

/-- Fault environment in which every store read and delivery fails. -/
def allFaults : Faults := ⟨fun _ => true, fun _ => true⟩

/-- Demo store: one guild `g1` with channel `c1` subscribed to `remote`. -/
def demoDB : DBState :=
  { guild_settings := [("g1", "c1")]
    subscriptions := [("g1", "remote")]
    processed := [] }

/-- Demo listing with a fresh id and the default-matching location. -/
def demoBounty : Bounty := ⟨some "b1", some "Remote"⟩

end BountyBot


namespace BountyBot

/-- Demo store faults: reads fail for guild `g1` and sends fail for `c1`. -/
def demoFaults : Faults := ⟨fun gid => gid == "g1", fun ch => ch == "c1"⟩

/-- Demo store: guild `g1` with channel `c1` subscribed to the empty keyword. -/
def emptyKwDB : DBState :=
  { guild_settings := [("g1", "c1")]
    subscriptions := [("g1", "")]
    processed := [] }

theorem containsSubstr_iff (needle : List Char) :
    ∀ haystack : List Char,
      containsSubstr needle haystack = true ↔ needle <:+: haystack
  | [] => by
    simp [containsSubstr, List.isEmpty_iff, List.infix_nil]
  | c :: rest => by
    rw [containsSubstr, Bool.or_eq_true, List.isPrefixOf_iff_prefix,
      containsSubstr_iff needle rest, List.infix_cons_iff]

theorem matches_location_empty (location : String) :
    matches_location location "" = true := by
  rw [matches_location, containsSubstr_iff]
  exact List.nil_infix

/-- C2: `matches_location` is exactly case-insensitive substring containment —
true iff the lowercased keyword occurs contiguously inside the lowercased
location, with no trimming or any other normalization; in particular
`matches_location "San Francisco, CA" "san francisco"` is true and
`matches_location "Remote" "Berlin"` is false. -/
theorem matches_location_spec :
    (∀ location keyword : String,
      matches_location location keyword = true ↔
        (str_lower keyword).data <:+: (str_lower location).data) ∧
    matches_location "San Francisco, CA" "san francisco" = true ∧
    matches_location "Remote" "Berlin" = false :=
  ⟨fun _ keyword => containsSubstr_iff (str_lower keyword).data _, by decide, by decide⟩

/-- C9: the empty keyword matches every location, so a guild that stores an
empty-keyword subscription is delivered every unprocessed listing regardless
of its location. -/
theorem matches_location_empty_keyword :
    (∀ location : String, matches_location location "" = true) ∧
    (∀ (f : Faults) (db : DBState) (location : String) (b : Bounty)
      (g : String × String),
      f.subsFail g.1 = false → "" ∈ get_subscriptions db g.1 →
      (fanout_guild f db location b g).1 = [⟨g.2, b⟩]) := by
  refine ⟨matches_location_empty, fun f db location b g hsub hmem => ?_⟩
  have hany : (get_subscriptions db g.1).any
      (fun kw => matches_location location kw) = true :=
    List.any_eq_true.mpr ⟨"", hmem, matches_location_empty location⟩
  simp only [fanout_guild, hsub, Bool.false_eq_true, if_false, hany, if_true]
  cases hs : f.sendFail g.2 <;> simp

/-- Witness for C9: a guild subscribed to the empty keyword gets a delivery
for a listing located in `"Berlin, Germany"`. -/
theorem matches_location_empty_keyword_witness :
    matches_location "Berlin, Germany" "" = true ∧
    (fanout_guild faultFree emptyKwDB "Berlin, Germany" demoBounty ("g1", "c1")).1 =
      [⟨"c1", demoBounty⟩] :=
  ⟨matches_location_empty_keyword.1 "Berlin, Germany",
   matches_location_empty_keyword.2 faultFree emptyKwDB "Berlin, Germany" demoBounty
     ("g1", "c1") (by decide) (by decide)⟩

end BountyBot

namespace BountyBot

theorem mark_self_mem (db : DBState) (bid : String) :
    bid ∈ (mark_bounty_processed db bid).processed := by
  by_cases h : bid ∈ db.processed
  · simp [mark_bounty_processed, h]
  · simp [mark_bounty_processed, h]

theorem mark_of_mem {db : DBState} {bid : String} (h : bid ∈ db.processed) :
    mark_bounty_processed db bid = db := by
  simp [mark_bounty_processed, h]

theorem is_processed_mark_self (db : DBState) (bid : String) :
    is_bounty_processed (mark_bounty_processed db bid) bid = true := by
  simp [is_bounty_processed, mark_self_mem db bid]

theorem process_bounty_skips_processed (f : Faults) (db : DBState) (b : Bounty)
    (h1 : bounty_id_of b ≠ "")
    (h2 : is_bounty_processed db (bounty_id_of b) = true) :
    process_bounty f db b = (db, [], []) := by
  simp [process_bounty, h1, h2]

theorem process_bounty_fst (f : Faults) (db : DBState) (b : Bounty)
    (h1 : bounty_id_of b ≠ "")
    (h2 : is_bounty_processed db (bounty_id_of b) = false) :
    (process_bounty f db b).1 = mark_bounty_processed db (bounty_id_of b) := by
  simp [process_bounty, h1, h2]

/-- C1: per-listing dedup discipline of `process_bounty` — a falsy id is
skipped with a warning, no store write and no send; an already-processed id
is skipped silently with no send; a fresh id is marked processed before any
delivery is attempted, so that a later cycle seeing the same listing
performs zero sends and changes nothing, whatever deliveries failed the
first time. -/
theorem process_listing_at_most_once (f f' : Faults) (db : DBState) (b : Bounty) :
    (bounty_id_of b = "" →
      process_bounty f db b = (db, [], [BotLog.missingId])) ∧
    (bounty_id_of b ≠ "" → is_bounty_processed db (bounty_id_of b) = true →
      process_bounty f db b = (db, [], [])) ∧
    (bounty_id_of b ≠ "" → is_bounty_processed db (bounty_id_of b) = false →
      is_bounty_processed (process_bounty f db b).1 (bounty_id_of b) = true ∧
      process_bounty f' (process_bounty f db b).1 b =
        ((process_bounty f db b).1, [], [])) := by
  refine ⟨fun h => by simp [process_bounty, h],
    fun h1 h2 => process_bounty_skips_processed f db b h1 h2,
    fun h1 h2 => ?_⟩
  have hfst := process_bounty_fst f db b h1 h2
  rw [hfst]
  exact ⟨is_processed_mark_self db (bounty_id_of b),
    process_bounty_skips_processed f' _ b h1
      (is_processed_mark_self db (bounty_id_of b))⟩

/-- Witness for C1: the demo listing is delivered once with the delivery
failing, and a second cycle on the resulting store sends nothing and leaves
the store as it is. -/
theorem process_listing_at_most_once_witness :
    is_bounty_processed (process_bounty allSendFail demoDB demoBounty).1
      (bounty_id_of demoBounty) = true ∧
    process_bounty allSendFail (process_bounty allSendFail demoDB demoBounty).1
        demoBounty =
      ((process_bounty allSendFail demoDB demoBounty).1, [], []) :=
  (process_listing_at_most_once allSendFail allSendFail demoDB demoBounty).2.2
    (by decide) (by decide)

/-- C8: `mark_bounty_processed` is an idempotent insert — repeating it is a
no-op, not an error, the processed set ends up holding the id exactly once,
and a later cycle that fetches the same id again sends nothing. -/
theorem mark_processed_idempotent (db : DBState) (bid : String) (f : Faults)
    (b : Bounty) :
    mark_bounty_processed (mark_bounty_processed db bid) bid =
      mark_bounty_processed db bid ∧
    (bid ∈ db.processed → mark_bounty_processed db bid = db) ∧
    (db.processed.Nodup →
      (mark_bounty_processed db bid).processed.count bid = 1 ∧
      (mark_bounty_processed db bid).processed.Nodup) ∧
    (bounty_id_of b ≠ "" →
      (process_bounty f (mark_bounty_processed db (bounty_id_of b)) b).2.1 = []) := by
  refine ⟨mark_of_mem (mark_self_mem db bid), fun h => mark_of_mem h,
    fun hnd => ?_, fun h1 => ?_⟩
  · by_cases h : bid ∈ db.processed
    · rw [mark_of_mem h]
      exact ⟨List.count_eq_one_of_mem hnd h, hnd⟩
    · constructor
      · simp [mark_bounty_processed, h, List.count_append,
          List.count_eq_zero_of_not_mem h]
      · simp only [mark_bounty_processed, h, if_false]
        simp [List.nodup_append, h, hnd]
  · rw [process_bounty_skips_processed f _ b h1
      (is_processed_mark_self db (bounty_id_of b))]

/-- Witness for C8 at the demo store and listing id `b1`. -/
theorem mark_processed_idempotent_witness :
    mark_bounty_processed (mark_bounty_processed demoDB "b1") "b1" =
      mark_bounty_processed demoDB "b1" ∧
    (mark_bounty_processed demoDB "b1").processed.count "b1" = 1 ∧
    (process_bounty faultFree (mark_bounty_processed demoDB "b1")
      demoBounty).2.1 = [] := by
  obtain ⟨h1, _, h3, h4⟩ :=
    mark_processed_idempotent demoDB "b1" faultFree demoBounty
  exact ⟨h1, (h3 (by decide)).1, h4 (by decide)⟩

/-- C5: `add_subscription` returns `true` and appends the pair when it was
absent, and returns `false` with no mutation exactly when the pair already
existed — the uniqueness comes from the store's own constraint; repeating a
successful add returns `false`, leaves the store unchanged and keeps the
guild's subscription count the same. -/
theorem add_subscription_spec (db : DBState) (g k : String) :
    ((add_subscription db g k).1 = false ↔ (g, k) ∈ db.subscriptions) ∧
    ((g, k) ∈ db.subscriptions → add_subscription db g k = (false, db)) ∧
    ((g, k) ∉ db.subscriptions →
      add_subscription db g k =
        (true, { db with subscriptions := db.subscriptions ++ [(g, k)] })) ∧
    (add_subscription (add_subscription db g k).2 g k).1 = false ∧
    (add_subscription (add_subscription db g k).2 g k).2 =
      (add_subscription db g k).2 ∧
    (get_subscriptions (add_subscription (add_subscription db g k).2 g k).2 g).length =
      (get_subscriptions (add_subscription db g k).2 g).length := by
  by_cases h : (g, k) ∈ db.subscriptions
  · simp [add_subscription, h]
  · simp [add_subscription, h]

/-- Witness for C5: first add of `(g1, berlin)` inserts and reports `true`;
the immediate repeat reports `false` and mutates nothing. -/
theorem add_subscription_spec_witness :
    add_subscription demoDB "g1" "berlin" =
      (true, { demoDB with
        subscriptions := demoDB.subscriptions ++ [("g1", "berlin")] }) ∧
    (add_subscription (add_subscription demoDB "g1" "berlin").2 "g1" "berlin").1 =
      false := by
  obtain ⟨_, _, h3, h4, _⟩ := add_subscription_spec demoDB "g1" "berlin"
  exact ⟨h3 (by decide), h4⟩

end BountyBot

namespace BountyBot

theorem get_all_guilds_mark (db : DBState) (bid : String) :
    get_all_guilds (mark_bounty_processed db bid) = get_all_guilds db := by
  by_cases h : bid ∈ db.processed <;> simp [get_all_guilds, mark_bounty_processed, h]

theorem processed_monotone (f : Faults) (db : DBState) (b : Bounty) (x : String)
    (h : is_bounty_processed db x = true) :
    is_bounty_processed (process_bounty f db b).1 x = true := by
  by_cases h1 : bounty_id_of b = ""
  · simpa [process_bounty, h1] using h
  · by_cases h2 : is_bounty_processed db (bounty_id_of b) = true
    · rw [process_bounty_skips_processed f db b h1 h2]; exact h
    · rw [process_bounty_fst f db b h1 (by simpa using h2)]
      by_cases h3 : bounty_id_of b ∈ db.processed <;>
        simp_all [mark_bounty_processed, is_bounty_processed]

theorem process_batch_monotone (f : Faults) (x : String) :
    ∀ (bounties : List Bounty) (db : DBState),
      is_bounty_processed db x = true →
      is_bounty_processed (process_batch f db bounties).1 x = true
  | [], _, h => h
  | b :: rest, db, h =>
    process_batch_monotone f x rest (process_bounty f db b).1
      (processed_monotone f db b x h)

theorem process_marks_id (f : Faults) (db : DBState) (b : Bounty)
    (h : bounty_id_of b ≠ "") :
    is_bounty_processed (process_bounty f db b).1 (bounty_id_of b) = true := by
  by_cases h2 : is_bounty_processed db (bounty_id_of b) = true
  · rw [process_bounty_skips_processed f db b h h2]; exact h2
  · rw [process_bounty_fst f db b h (by simpa using h2)]
    exact is_processed_mark_self db (bounty_id_of b)

theorem process_batch_marks (f : Faults) (b2 : Bounty)
    (hid : bounty_id_of b2 ≠ "") :
    ∀ (bounties : List Bounty) (db : DBState), b2 ∈ bounties →
      is_bounty_processed (process_batch f db bounties).1 (bounty_id_of b2) = true
  | [], _, hmem => absurd hmem (List.not_mem_nil b2)
  | hd :: tl, db, hmem => by
    simp only [process_batch]
    rcases List.mem_cons.mp hmem with heq | htl
    · subst heq
      exact process_batch_monotone f (bounty_id_of b2) tl _
        (process_marks_id f db b2 hid)
    · exact process_batch_marks f b2 hid tl _ htl

/-- C6: a store-read or delivery failure for one guild is confined to that
guild — a guild's fanout outcome depends only on its own fault flags, every
guild in the settings table is evaluated for a fresh listing, and every
listing of the batch still gets processed (its id ends up marked) no matter
which per-guild failures occur. -/
theorem fanout_fault_isolation (f f' : Faults) (db : DBState) (location : String)
    (b : Bounty) (g : String × String) (bounties : List Bounty) :
    (f.subsFail g.1 = f'.subsFail g.1 → f.sendFail g.2 = f'.sendFail g.2 →
      fanout_guild f db location b g = fanout_guild f' db location b g) ∧
    (bounty_id_of b ≠ "" → is_bounty_processed db (bounty_id_of b) = false →
      (process_bounty f db b).2.1 =
        ((get_all_guilds db).map (fun g2 =>
          (fanout_guild f (mark_bounty_processed db (bounty_id_of b))
            (location_of b) b g2).1)).flatten) ∧
    (∀ b2 ∈ bounties, bounty_id_of b2 ≠ "" →
      is_bounty_processed (process_batch f db bounties).1 (bounty_id_of b2) = true) := by
  refine ⟨fun h1 h2 => by simp only [fanout_guild, h1, h2], fun h1 h2 => ?_,
    fun b2 hmem hid => process_batch_marks f b2 hid bounties db hmem⟩
  simp [process_bounty, h1, h2, get_all_guilds_mark, List.map_map,
    Function.comp_def]

/-- Witness for C6: faults injected on guild `g1` leave guild `g2`'s fanout
identical to the fault-free run, the faulty run still evaluates every guild
of the demo store, and the listing is marked processed despite the faults. -/
theorem fanout_fault_isolation_witness :
    fanout_guild demoFaults demoDB "Remote" demoBounty ("g2", "c2") =
      fanout_guild faultFree demoDB "Remote" demoBounty ("g2", "c2") ∧
    (process_bounty demoFaults demoDB demoBounty).2.1 =
      ((get_all_guilds demoDB).map (fun g2 =>
        (fanout_guild demoFaults
          (mark_bounty_processed demoDB (bounty_id_of demoBounty))
          (location_of demoBounty) demoBounty g2).1)).flatten ∧
    is_bounty_processed (process_batch demoFaults demoDB [demoBounty]).1
      (bounty_id_of demoBounty) = true := by
  obtain ⟨h1, h2, h3⟩ := fanout_fault_isolation demoFaults faultFree demoDB
    "Remote" demoBounty ("g2", "c2") [demoBounty]
  exact ⟨h1 (by decide) (by decide), h2 (by decide) (by decide),
    h3 demoBounty (by decide) (by decide)⟩

end BountyBot

namespace BountyBot

theorem retry_loop_all_fail (outcome : Nat → Except Unit (List Bounty))
    (hfail : ∀ i, outcome i = Except.error ()) :
    ∀ (fuel attempt : Nat),
      retry_loop outcome attempt fuel =
        ⟨Except.error (), fuel,
          (List.range (fuel - 1)).map (fun k => backoff_delay (attempt + k))⟩
  | 0, attempt => by simp [retry_loop]
  | 1, attempt => by simp [retry_loop, hfail attempt]
  | fuel + 2, attempt => by
    have ih := retry_loop_all_fail outcome hfail (fuel + 1) (attempt + 1)
    have hr : (List.range (fuel + 2 - 1)).map (fun k => backoff_delay (attempt + k)) =
        backoff_delay attempt ::
          (List.range (fuel + 1 - 1)).map
            (fun k => backoff_delay (attempt + 1 + k)) := by
      rw [show fuel + 2 - 1 = (fuel + 1 - 1) + 1 from rfl, List.range_succ_eq_map,
        List.map_cons, List.map_map]
      refine congrArg₂ _ (by rw [Nat.add_zero]) ?_
      congr 1
      funext k
      exact congrArg backoff_delay (by omega)
    simp only [retry_loop, hfail attempt, ih, hr]

theorem backoff_delay_floor_cap (k : Nat) :
    2 ≤ backoff_delay k ∧ backoff_delay k ≤ 10 ∧
      backoff_delay k ≤ backoff_delay (k + 1) := by
  have hpow : (2 : Nat) ^ (k - 1) ≤ 2 ^ (k + 1 - 1) :=
    Nat.pow_le_pow_right (by decide) (by omega)
  simp only [backoff_delay, wait_exponential, Nat.one_mul,
    show Nat.max 0 2 = 2 from rfl]
  refine ⟨Nat.le_max_left 2 _, ?_, ?_⟩
  · exact Nat.max_le.mpr ⟨by decide, Nat.min_le_right _ _⟩
  · exact max_le_max (Nat.le_refl 2) (min_le_min hpow (Nat.le_refl 10))

/-- C3 (amended): when every attempt fails with a transient error the client
issues exactly `maxRetries` attempts and ends with the error, which the poll
loop catches so the cycle completes with no deliveries; the sleep after the
k-th failed attempt is `max(2, min(2^(k-1), 10))` seconds — at least 2 s,
at most 10 s, non-decreasing, and starting at 2 s.  (Because of the 2 s
floor the first two delays are both 2 s: the delays do not literally double
on each retry.) -/
theorem retry_exhaustion_spec (n : Nat)
    (outcome : Nat → Except Unit (List Bounty)) (f : Faults) (db : DBState)
    (hfail : ∀ i, outcome i = Except.error ()) :
    (fetch_bounties_retry n outcome).attempts = n ∧
    (fetch_bounties_retry n outcome).result = Except.error () ∧
    (fetch_bounties_retry n outcome).delays =
      (List.range (n - 1)).map (fun k => backoff_delay (1 + k)) ∧
    backoff_delay 1 = 2 ∧
    (∀ k, 2 ≤ backoff_delay k ∧ backoff_delay k ≤ 10 ∧
      backoff_delay k ≤ backoff_delay (k + 1)) ∧
    poll_cycle f db (Except.error ()) = (db, []) := by
  rw [fetch_bounties_retry, retry_loop_all_fail outcome hfail n 1]
  exact ⟨rfl, rfl, rfl, rfl, backoff_delay_floor_cap, rfl⟩

/-- Witness for C3 (amended) at the default `max_retries = 3`. -/
theorem retry_exhaustion_spec_witness :
    (fetch_bounties_retry 3
      (fun _ => (Except.error () : Except Unit (List Bounty)))).attempts = 3 ∧
    (fetch_bounties_retry 3
      (fun _ => (Except.error () : Except Unit (List Bounty)))).result =
      Except.error () ∧
    poll_cycle faultFree demoDB (Except.error ()) = (demoDB, []) := by
  obtain ⟨h1, h2, _, _, _, h6⟩ :=
    retry_exhaustion_spec 3 (fun _ => Except.error ()) faultFree demoDB
      (fun _ => rfl)
  exact ⟨h1, h2, h6⟩

/-- C3 counterexample: with the configured backoff
(`wait_exponential(multiplier=1, min=2, max=10)`) and the default three
attempts, both sleeps last 2 s — the second delay is 2 s, not double the
first — so the delays do not double on each retry. -/
theorem retry_backoff_not_doubling :
    (fetch_bounties_retry 3
      (fun _ => (Except.error () : Except Unit (List Bounty)))).delays = [2, 2] ∧
    ¬ ((fetch_bounties_retry 3
        (fun _ => (Except.error () : Except Unit (List Bounty)))).delays.getD 1 0 =
      2 * (fetch_bounties_retry 3
        (fun _ => (Except.error () : Except Unit (List Bounty)))).delays.getD 0 0) :=
  ⟨rfl, by decide⟩

end BountyBot

namespace BountyBot

/-- C4: normalization of a 200 body — a sequence is returned unchanged; a
keyed structure is probed for `bounties`, `data`, `results`, `items` in that
priority order and the first present key's value is returned; a keyed
structure with none of them yields `[]` plus a log entry and the attempt
still succeeds; the raw bodies `[{"id":"1"}]` and `{"data":[{"id":"1"}]}`
normalize to the same single-element sequence. -/
theorem response_shape_normalization (xs : List Json)
    (fields : List (String × Json)) (v : Json) :
    extract_bounties (Json.arr xs) = Json.arr xs ∧
    (lookupKey fields "bounties" = some v →
      extract_bounties (Json.obj fields) = v) ∧
    (lookupKey fields "bounties" = none → lookupKey fields "data" = some v →
      extract_bounties (Json.obj fields) = v) ∧
    (lookupKey fields "bounties" = none → lookupKey fields "data" = none →
      lookupKey fields "results" = some v →
      extract_bounties (Json.obj fields) = v) ∧
    (lookupKey fields "bounties" = none → lookupKey fields "data" = none →
      lookupKey fields "results" = none → lookupKey fields "items" = some v →
      extract_bounties (Json.obj fields) = v) ∧
    (lookupKey fields "bounties" = none → lookupKey fields "data" = none →
      lookupKey fields "results" = none → lookupKey fields "items" = none →
      extract_bounties (Json.obj fields) = Json.arr [] ∧
      shape_logs (Json.obj fields) = [FetchLog.unexpectedShape] ∧
      (fetch_attempt 200 (Json.obj fields)).1 = Except.ok (Json.arr [])) ∧
    extract_bounties (Json.arr [Json.obj [("id", Json.str "1")]]) =
      Json.arr [Json.obj [("id", Json.str "1")]] ∧
    extract_bounties (Json.obj [("data", Json.arr [Json.obj [("id", Json.str "1")]])]) =
      Json.arr [Json.obj [("id", Json.str "1")]] := by
  refine ⟨rfl,
    fun h1 => by
      simp [extract_bounties, probeKeys, responseKeys, h1],
    fun h1 h2 => by
      simp [extract_bounties, probeKeys, responseKeys, h1, h2],
    fun h1 h2 h3 => by
      simp [extract_bounties, probeKeys, responseKeys, h1, h2, h3],
    fun h1 h2 h3 h4 => by
      simp [extract_bounties, probeKeys, responseKeys, h1, h2, h3, h4],
    fun h1 h2 h3 h4 => by
      simp [extract_bounties, shape_logs, fetch_attempt, probeKeys,
        responseKeys, h1, h2, h3, h4],
    rfl, rfl⟩

/-- Witness for C4: a body whose only probed key is `data` (and with the
higher-priority `bounties` absent) yields exactly the value stored under
`data`. -/
theorem response_shape_normalization_witness :
    extract_bounties (Json.obj [("data", Json.arr [Json.obj [("id", Json.str "1")]])]) =
      Json.arr [Json.obj [("id", Json.str "1")]] :=
  (response_shape_normalization []
      [("data", Json.arr [Json.obj [("id", Json.str "1")]])]
      (Json.arr [Json.obj [("id", Json.str "1")]])).2.2.1 rfl rfl

/-- C7: the per-attempt status policy of `fetch_bounties` — 200 returns the
normalized sequence, 401 logs an auth failure and returns `[]` without
raising, 429 raises a transient error for retry, and any other non-200
status logs and returns `[]` without raising. -/
theorem fetch_status_policy (status : Nat) (body : Json) :
    (fetch_attempt 200 body).1 = Except.ok (extract_bounties body) ∧
    fetch_attempt 401 body = (Except.ok (Json.arr []), [FetchLog.authFailed]) ∧
    fetch_attempt 429 body = (Except.error (), [FetchLog.rateLimited]) ∧
    (status ≠ 200 → status ≠ 401 → status ≠ 429 →
      fetch_attempt status body = (Except.ok (Json.arr []),
        [FetchLog.apiError status])) :=
  ⟨rfl, rfl, rfl, fun h1 h2 h3 => by simp [fetch_attempt, h1, h2, h3]⟩

/-- Witness for C7: a 500 response is logged and absorbed into `[]`. -/
theorem fetch_status_policy_witness :
    fetch_attempt 500 Json.null =
      (Except.ok (Json.arr []), [FetchLog.apiError 500]) :=
  (fetch_status_policy 500 Json.null).2.2.2 (by decide) (by decide) (by decide)

/-- C10: when a probed key is present its value is returned unchanged, with
no check that it is a sequence; the body `{"data": "oops"}` therefore makes
the attempt succeed with the non-sequence value `"oops"`, violating the
declared sequence-of-listings return shape. -/
theorem normalization_returns_payload_unchecked
    (fields : List (String × Json)) (v : Json) :
    (lookupKey fields "bounties" = none → lookupKey fields "data" = some v →
      extract_bounties (Json.obj fields) = v) ∧
    extract_bounties (Json.obj [("data", Json.str "oops")]) = Json.str "oops" ∧
    (extract_bounties (Json.obj [("data", Json.str "oops")])).isArr = false ∧
    (fetch_attempt 200 (Json.obj [("data", Json.str "oops")])).1 =
      Except.ok (Json.str "oops") := by
  refine ⟨fun h1 h2 => ?_, rfl, rfl, rfl⟩
  simp [extract_bounties, probeKeys, responseKeys, h1, h2]

/-- Witness for C10 at the body `{"data": "oops"}`. -/
theorem normalization_returns_payload_unchecked_witness :
    extract_bounties (Json.obj [("data", Json.str "oops")]) = Json.str "oops" :=
  (normalization_returns_payload_unchecked [("data", Json.str "oops")]
    (Json.str "oops")).1 rfl rfl

end BountyBot
